import Mathlib

/-!
Verification of the insurance-notification approval service.

This file gives a shallow embedding of the approval workflow of the
repository (`approval_api.py` and the approval ticket store it drives) and
proves the specified properties about it.

The ticket store (`approval_manager`) is referenced by `approval_api.py`
and `server.py` but its module is not part of the provided sources; its
operations are modelled from the specification (section 4.1 of the spec)
and are marked as such.  The HTTP handlers, the resumption push
(`push_response_to_adk`) and the read endpoints are translated from
`approval_api.py` directly.

Effects are made explicit: the network outcome of the outbound resumption
POST is an input (`NetworkOutcome`), logging is recorded as boolean flags,
and the in-memory ticket map is threaded through the handlers as a value.
-/

/-- Lifecycle status of an approval ticket: `pending` initially,
`approved`/`rejected` terminal. -/
inductive Status where
  | pending
  | approved
  | rejected
deriving DecidableEq, Repr

/-- The string stored in the Python record for each status value. -/
def Status.toStr : Status → String
  | .pending => "pending"
  | .approved => "approved"
  | .rejected => "rejected"

/-- A status is terminal when it is no longer `pending`. -/
def Status.isTerminal (s : Status) : Bool :=
  s ≠ Status.pending

/-- The `ApprovalRequest` record (spec section 3; the dataclass handled by
`approval_api.py`).  `session_info` embeds
`metadata["session_info"]` as a string dictionary; an absent `metadata`
or `session_info` key is the empty dictionary, matching
`approval_request.get("metadata", {}).get("session_info", {})` in the
source.  Timestamps are abstract `Nat` instants. -/
structure ApprovalRequest where
  ticket_id : String
  claim_id : String
  user_email : String
  request_type : String
  status : Status
  created_at : Nat
  updated_at : Nat
  function_call_id : Option String
  session_info : List (String × String)
  approver_notes : Option String
  rejection_reason : Option String
deriving DecidableEq, Repr

/-- The in-memory ticket map: ticket ID to record. -/
abbrev Store := List (String × ApprovalRequest)

/-- Lookup of a ticket by ID (first matching entry). -/
def storeGet (store : Store) (tid : String) : Option ApprovalRequest :=
  match store with
  | [] => none
  | (k, v) :: rest => if k = tid then some v else storeGet rest tid

/-- Replace the record stored under `tid` (first matching entry). -/
def storeUpdate (store : Store) (tid : String) (r : ApprovalRequest) : Store :=
  match store with
  | [] => []
  | (k, v) :: rest =>
      if k = tid then (k, r) :: rest else (k, v) :: storeUpdate rest tid r

/-- Python-dict string lookup, used on `session_info`. -/
def dictGet (d : List (String × String)) (key : String) : Option String :=
  match d with
  | [] => none
  | (k, v) :: rest => if k = key then some v else dictGet rest key

namespace approval_manager

/-- Result of a transition attempt on the store.  The spec distinguishes a
not-found error from an already-terminal error; the handlers in
`approval_api.py` inspect only whether the result is an error
(`result["status"] == "error"`). -/
inductive MgrResult where
  | ok (record : ApprovalRequest)
  | notFoundError (message : String)
  | alreadyTerminalError (message : String)
deriving DecidableEq, Repr

/-- The handlers' check `result["status"] == "error"`: both error kinds
carry `status: "error"`. -/
def MgrResult.isError : MgrResult → Bool
  | .ok _ => false
  | .notFoundError _ => true
  | .alreadyTerminalError _ => true

/-- The error message of the result (`result["message"]`). -/
def MgrResult.message : MgrResult → String
  | .ok r => r.ticket_id
  | .notFoundError m => m
  | .alreadyTerminalError m => m

/-- The claim ID reported with a successful result
(`result.get("claim_id", "N/A")`). -/
def MgrResult.claimId : MgrResult → String
  | .ok r => r.claim_id
  | .notFoundError _ => "N/A"
  | .alreadyTerminalError _ => "N/A"

/-- Modelled from the spec: `approval_manager.create` (spec 4.1), whose
module is not among the provided sources.  Allocates a new record in
`pending` state with `created_at = updated_at = now`.  Generated ticket
IDs are unique, so an already-present ID is never reissued; the guard
makes that explicit. -/
def create (store : Store) (tid claim_id user_email request_type : String)
    (function_call_id : Option String) (session_info : List (String × String))
    (now : Nat) : Store :=
  match storeGet store tid with
  | some _ => store
  | none =>
      (tid, { ticket_id := tid, claim_id := claim_id, user_email := user_email,
              request_type := request_type, status := Status.pending,
              created_at := now, updated_at := now,
              function_call_id := function_call_id,
              session_info := session_info,
              approver_notes := none, rejection_reason := none }) :: store

/-- Modelled from the spec: `approval_manager.get_approval` (spec 4.1
`get`), whose module is not among the provided sources.  Pure lookup;
never creates a record. -/
def get_approval (store : Store) (tid : String) : Option ApprovalRequest :=
  storeGet store tid

/-- Modelled from the spec: `approval_manager.approve` (spec 4.1), whose
module is not among the provided sources.  Sets status to `approved` and
stamps `updated_at` when the ticket is pending; errors on an unknown
ticket and on an already-terminal ticket (the second transition attempt
must be rejected, not reapplied). -/
def approve (store : Store) (tid : String) (approver_notes : String)
    (now : Nat) : Store × MgrResult :=
  match storeGet store tid with
  | none => (store, .notFoundError ("Ticket " ++ tid ++ " not found"))
  | some r =>
      match r.status with
      | .pending =>
          let r2 := { r with
            status := Status.approved,
            updated_at := now,
            approver_notes := some approver_notes }
          (storeUpdate store tid r2, .ok r2)
      | _ => (store, .alreadyTerminalError ("Ticket " ++ tid ++ " already processed"))

/-- Modelled from the spec: `approval_manager.reject` (spec 4.1), whose
module is not among the provided sources.  Symmetric to `approve`. -/
def reject (store : Store) (tid : String) (rejection_reason : String)
    (now : Nat) : Store × MgrResult :=
  match storeGet store tid with
  | none => (store, .notFoundError ("Ticket " ++ tid ++ " not found"))
  | some r =>
      match r.status with
      | .pending =>
          let r2 := { r with
            status := Status.rejected,
            updated_at := now,
            rejection_reason := some rejection_reason }
          (storeUpdate store tid r2, .ok r2)
      | _ => (store, .alreadyTerminalError ("Ticket " ++ tid ++ " already processed"))

/-- Modelled from the spec: `approval_manager.get_all_pending` (spec 4.1
`list_pending`), whose module is not among the provided sources.  The
records whose status is `pending`. -/
def get_all_pending (store : Store) : List ApprovalRequest :=
  (store.map Prod.snd).filter (fun r => r.status = Status.pending)

end approval_manager

/-- JSON values, for the outbound resumption payload and the JSON replies
of the read endpoints. -/
inductive Json where
  | null
  | str (s : String)
  | num (n : Nat)
  | obj (fields : List (String × Json))
  | arr (elems : List Json)

/-- A Python value that may be `None` becomes JSON `null`
(`session_info.get(...)` on a missing key). -/
def Json.ofOpt : Option String → Json
  | none => Json.null
  | some s => Json.str s

/-- Python truthiness of an optional string: `not x` is true for `None`
and for the empty string. -/
def strFalsy : Option String → Bool
  | none => true
  | some s => s = ""

/-- The outcome of the outbound `POST` to the agent runtime, supplied as
an input to the embedding: an HTTP response with some status code, or a
raised exception. -/
inductive NetworkOutcome where
  | response (status_code : Nat)
  | exception (message : String)
deriving DecidableEq, Repr

/-- The outbound HTTP request the service sends to the agent runtime. -/
structure OutboundRequest where
  method : String
  url : String
  body : Json

/-- Observable result of one call to `push_response_to_adk`: the value the
function returns, the outbound request if one was attempted, and the two
log events the function can print. -/
structure PushResult where
  returned : Bool
  sent : Option OutboundRequest
  missing_warning : Bool
  failure_logged : Bool

/-- The `function_response` dictionary built in `push_response_to_adk`
(approval_api.py lines 56-62). -/
def functionResponseJson (approval_request : ApprovalRequest)
    (approval_status : String) : Json :=
  Json.obj
    [("status", Json.str "success"),
     ("approval_status", Json.str approval_status),
     ("ticket_id", Json.str approval_request.ticket_id),
     ("claim_id", Json.str approval_request.claim_id),
     ("message", Json.str ("Claim verification " ++ approval_status ++ " by user"))]

/-- The resumption payload posted to the runtime (approval_api.py lines
67-81). -/
def resumptionPayload (session_info : List (String × String))
    (function_call_id : String) (functionResponse : Json) : Json :=
  Json.obj
    [("app_name", Json.ofOpt (dictGet session_info "app_name")),
     ("user_id", Json.ofOpt (dictGet session_info "user_id")),
     ("session_id", Json.ofOpt (dictGet session_info "session_id")),
     ("new_message", Json.obj
       [("role", Json.str "function"),
        ("parts", Json.arr
          [Json.obj
            [("function_response", Json.obj
              [("name", Json.str "request_claim_approval"),
               ("id", Json.str function_call_id),
               ("response", functionResponse)])]])])]

/-- `push_response_to_adk` (approval_api.py lines 36-102).  Returns
`False` with a warning when the correlation data is missing, otherwise
posts the resumption payload to `{adk_api_url}/run` and returns `True`
exactly on an HTTP 200 response; a non-200 response or a raised exception
is logged and yields `False`.  The whole body runs under a
catch-all `except` returning `False`, so no exception escapes. -/
def push_response_to_adk (approval_request : ApprovalRequest)
    (approval_status : String) (adk_api_url : String)
    (net : NetworkOutcome) : PushResult :=
  let session_info := approval_request.session_info
  match approval_request.function_call_id with
  | none =>
      { returned := false, sent := none,
        missing_warning := true, failure_logged := false }
  | some fc =>
      if fc = "" ∨ session_info = [] then
        { returned := false, sent := none,
          missing_warning := true, failure_logged := false }
      else
        let push_url := adk_api_url ++ "/run"
        let payload := resumptionPayload session_info fc
          (functionResponseJson approval_request approval_status)
        let req : OutboundRequest := { method := "POST", url := push_url, body := payload }
        match net with
        | .response code =>
            if code = 200 then
              { returned := true, sent := some req,
                missing_warning := false, failure_logged := false }
            else
              { returned := false, sent := some req,
                missing_warning := false, failure_logged := true }
        | .exception _ =>
            { returned := false, sent := some req,
              missing_warning := false, failure_logged := true }

/-- The response a handler gives to the HTTP caller: an `HTTPException`
with a status code and detail, the HTML confirmation page of
`approve_request`/`reject_request` (abstracted to its dynamic parts:
title, ticket ID, claim ID), or a JSON document. -/
inductive ApiResponse where
  | httpError (status_code : Nat) (detail : String)
  | successPage (title ticket_id claim_id : String)
  | jsonBody (body : Json)

/-- The observable outcome of one approve/reject handler run: the ticket
map afterwards, the HTTP response, and the `push_response_to_adk` call if
one was made. -/
structure HandlerRun where
  store : Store
  response : ApiResponse
  push : Option PushResult

/-- `GET /api/approve/{ticket_id}` (approval_api.py lines 119-198).
Looks the ticket up (404 when absent), snapshots the record, attempts the
transition through the manager (404 when the manager reports an error),
then pushes the resumption to the runtime and returns the confirmation
page. -/
def approve_request (store : Store) (ticket_id : String) (now : Nat)
    (adk_api_url : String) (net : NetworkOutcome) : HandlerRun :=
  match approval_manager.get_approval store ticket_id with
  | none =>
      { store := store,
        response := .httpError 404 ("Ticket " ++ ticket_id ++ " not found"),
        push := none }
  | some approval_request =>
      let approval_dict := approval_request
      let res := approval_manager.approve store ticket_id "Approved via email link" now
      if res.2.isError then
        { store := res.1, response := .httpError 404 res.2.message, push := none }
      else
        let pr := push_response_to_adk approval_dict "approved" adk_api_url net
        { store := res.1,
          response := .successPage "Claim Approved" ticket_id res.2.claimId,
          push := some pr }

/-- `GET /api/reject/{ticket_id}` (approval_api.py lines 201-283).
Symmetric to `approve_request`. -/
def reject_request (store : Store) (ticket_id : String) (now : Nat)
    (adk_api_url : String) (net : NetworkOutcome) : HandlerRun :=
  match approval_manager.get_approval store ticket_id with
  | none =>
      { store := store,
        response := .httpError 404 ("Ticket " ++ ticket_id ++ " not found"),
        push := none }
  | some approval_request =>
      let approval_dict := approval_request
      let res := approval_manager.reject store ticket_id "Rejected via email link" now
      if res.2.isError then
        { store := res.1, response := .httpError 404 res.2.message, push := none }
      else
        let pr := push_response_to_adk approval_dict "rejected" adk_api_url net
        { store := res.1,
          response := .successPage "Claim Rejected" ticket_id res.2.claimId,
          push := some pr }

/-- `GET /api/status/{ticket_id}` (approval_api.py lines 286-303): 404
when the ticket is unknown, otherwise the six-field JSON document. -/
def get_status (store : Store) (ticket_id : String) : ApiResponse :=
  match approval_manager.get_approval store ticket_id with
  | none => .httpError 404 ("Ticket " ++ ticket_id ++ " not found")
  | some request =>
      .jsonBody (Json.obj
        [("ticket_id", Json.str request.ticket_id),
         ("claim_id", Json.str request.claim_id),
         ("status", Json.str request.status.toStr),
         ("request_type", Json.str request.request_type),
         ("created_at", Json.num request.created_at),
         ("updated_at", Json.num request.updated_at)])

/-- `GET /api/pending` (approval_api.py lines 306-324): the count and the
five visible fields of each pending ticket. -/
def get_pending_approvals (store : Store) : ApiResponse :=
  let pending := approval_manager.get_all_pending store
  .jsonBody (Json.obj
    [("count", Json.num pending.length),
     ("pending_approvals", Json.arr (pending.map (fun req =>
        Json.obj
          [("ticket_id", Json.str req.ticket_id),
           ("claim_id", Json.str req.claim_id),
           ("user_email", Json.str req.user_email),
           ("request_type", Json.str req.request_type),
           ("created_at", Json.num req.created_at)])))])

/-- One incoming approve/reject HTTP request: its target ticket, the
instant it is processed, and the network outcome of the resumption POST
it may perform. -/
inductive Req where
  | approveReq (ticket_id : String) (now : Nat) (net : NetworkOutcome)
  | rejectReq (ticket_id : String) (now : Nat) (net : NetworkOutcome)

/-- The ticket a request targets. -/
def Req.tid : Req → String
  | .approveReq t _ _ => t
  | .rejectReq t _ _ => t

/-- Dispatch one request to its handler. -/
def Req.run (q : Req) (store : Store) (adk_api_url : String) : HandlerRun :=
  match q with
  | .approveReq t now net => approve_request store t now adk_api_url net
  | .rejectReq t now net => reject_request store t now adk_api_url net

/-- Process a sequence of approve/reject requests, collecting the ticket
IDs for which a resumption push was fired. -/
def runReqs (store : Store) (adk_api_url : String) : List Req → Store × List String
  | [] => (store, [])
  | q :: rest =>
      let h := q.run store adk_api_url
      let out := runReqs h.store adk_api_url rest
      (out.1, (if h.push.isSome then [q.tid] else []) ++ out.2)

/-- How many resumption pushes in the collected log were fired for a
given ticket. -/
def pushesFor (tid : String) (log : List String) : Nat :=
  (log.filter (fun x => x = tid)).length

/-- One operation on the ticket store (for the lifecycle invariant). -/
inductive MgrOp where
  | createOp (tid claim_id user_email request_type : String)
      (function_call_id : Option String)
      (session_info : List (String × String)) (now : Nat)
  | approveOp (tid : String) (approver_notes : String) (now : Nat)
  | rejectOp (tid : String) (rejection_reason : String) (now : Nat)

/-- The store after one manager operation. -/
def MgrOp.apply (op : MgrOp) (store : Store) : Store :=
  match op with
  | .createOp t c u rt fc si now => approval_manager.create store t c u rt fc si now
  | .approveOp t n now => (approval_manager.approve store t n now).1
  | .rejectOp t n now => (approval_manager.reject store t n now).1

/-- The store after a sequence of manager operations. -/
def runMgrOps (store : Store) : List MgrOp → Store
  | [] => store
  | op :: rest => runMgrOps (op.apply store) rest

/-- Sample session-correlation data, for concrete instantiations. -/
def sampleSession : List (String × String) :=
  [("app_name", "insurance_notification"), ("user_id", "customer_001"),
   ("session_id", "session_001")]

/-- A sample pending ticket. -/
def sampleTicket : ApprovalRequest :=
  { ticket_id := "TICKET-001", claim_id := "CLM-001",
    user_email := "customer@example.com", request_type := "claim_verification",
    status := Status.pending, created_at := 10, updated_at := 10,
    function_call_id := some "fc-1", session_info := sampleSession,
    approver_notes := none, rejection_reason := none }

/-- A sample ticket already in a terminal state. -/
def doneTicket : ApprovalRequest :=
  { sampleTicket with
    ticket_id := "TICKET-002",
    status := Status.approved,
    updated_at := 20,
    approver_notes := some "Approved via email link" }

/-- A store holding one pending and one terminal ticket. -/
def sampleStore : Store :=
  [("TICKET-001", sampleTicket), ("TICKET-002", doneTicket)]

/-- A pending ticket whose correlation data is missing. -/
def noCorrTicket : ApprovalRequest :=
  { sampleTicket with
    ticket_id := "TICKET-004",
    function_call_id := none,
    session_info := [] }

/-- A store holding only the correlation-less pending ticket. -/
def noCorrStore : Store :=
  [("TICKET-004", noCorrTicket)]

/-- The resumption payload shape exactly as the spec states it (section
6): an object with the keys `app_name`, `user_id`, `session_id` and
`new_message`, where `new_message` is an object with `role` `"function"`
and `parts` a one-element array holding an object whose single key
`function_response` maps to an object with the keys `name`, `id` and
`response`.  Stated separately from `resumptionPayload` (which is
translated from the source) so the two can be compared. -/
def specResumptionShape (app_name user_id session_id : Json)
    (name fcid : String) (response : Json) : Json :=
  Json.obj
    [("app_name", app_name),
     ("user_id", user_id),
     ("session_id", session_id),
     ("new_message", Json.obj
       [("role", Json.str "function"),
        ("parts", Json.arr
          [Json.obj
            [("function_response", Json.obj
              [("name", Json.str name),
               ("id", Json.str fcid),
               ("response", response)])]])])]

/-- The network outcomes under which delivery of the resumption payload
fails: a non-200 response or a raised exception. -/
def netFails : NetworkOutcome → Prop
  | .response code => code ≠ 200
  | .exception _ => True

/-- No record is stored under `tid` in a pending state (absent, or
present and terminal). -/
def notPendingAt (store : Store) (tid : String) : Prop :=
  ∀ r, storeGet store tid = some r → r.status ≠ Status.pending

theorem storeGet_update_self (store : Store) (tid : String)
    (r r2 : ApprovalRequest) (h : storeGet store tid = some r) :
    storeGet (storeUpdate store tid r2) tid = some r2 := by
  induction store with
  | nil => simp [storeGet] at h
  | cons p rest ih =>
      obtain ⟨k, v⟩ := p
      by_cases hk : k = tid
      · simp [storeGet, storeUpdate, hk]
      · simp [storeGet, storeUpdate, hk] at h ⊢
        exact ih h

theorem storeGet_update_other (store : Store) (tid tid2 : String)
    (r2 : ApprovalRequest) (h : tid2 ≠ tid) :
    storeGet (storeUpdate store tid2 r2) tid = storeGet store tid := by
  induction store with
  | nil => rfl
  | cons p rest ih =>
      obtain ⟨k, v⟩ := p
      by_cases hk : k = tid2
      · subst hk
        simp [storeGet, storeUpdate, h]
      · by_cases hk2 : k = tid
        · subst hk2
          simp [storeGet, storeUpdate, hk]
        · simp [storeGet, storeUpdate, hk, hk2, ih]

namespace approval_manager

theorem approve_of_missing (store : Store) (tid notes : String) (now : Nat)
    (h : storeGet store tid = none) :
    approve store tid notes now
      = (store, .notFoundError ("Ticket " ++ tid ++ " not found")) := by
  simp [approve, h]

theorem reject_of_missing (store : Store) (tid reason : String) (now : Nat)
    (h : storeGet store tid = none) :
    reject store tid reason now
      = (store, .notFoundError ("Ticket " ++ tid ++ " not found")) := by
  simp [reject, h]

theorem approve_of_terminal (store : Store) (tid notes : String) (now : Nat)
    (r : ApprovalRequest) (h : storeGet store tid = some r)
    (ht : r.status ≠ Status.pending) :
    approve store tid notes now
      = (store, .alreadyTerminalError ("Ticket " ++ tid ++ " already processed")) := by
  obtain ⟨t1, c1, u1, rt1, st, ca, ua, fc, si, an, rr⟩ := r
  cases st with
  | pending => exact absurd rfl ht
  | approved => simp [approve, h]
  | rejected => simp [approve, h]

theorem reject_of_terminal (store : Store) (tid reason : String) (now : Nat)
    (r : ApprovalRequest) (h : storeGet store tid = some r)
    (ht : r.status ≠ Status.pending) :
    reject store tid reason now
      = (store, .alreadyTerminalError ("Ticket " ++ tid ++ " already processed")) := by
  obtain ⟨t1, c1, u1, rt1, st, ca, ua, fc, si, an, rr⟩ := r
  cases st with
  | pending => exact absurd rfl ht
  | approved => simp [reject, h]
  | rejected => simp [reject, h]

theorem approve_of_pending (store : Store) (tid notes : String) (now : Nat)
    (r : ApprovalRequest) (h : storeGet store tid = some r)
    (hp : r.status = Status.pending) :
    approve store tid notes now
      = (storeUpdate store tid
          { r with
            status := Status.approved,
            updated_at := now,
            approver_notes := some notes },
         .ok { r with
            status := Status.approved,
            updated_at := now,
            approver_notes := some notes }) := by
  obtain ⟨t1, c1, u1, rt1, st, ca, ua, fc, si, an, rr⟩ := r
  cases st with
  | pending => simp [approve, h]
  | approved => exact absurd hp (by simp)
  | rejected => exact absurd hp (by simp)

theorem reject_of_pending (store : Store) (tid reason : String) (now : Nat)
    (r : ApprovalRequest) (h : storeGet store tid = some r)
    (hp : r.status = Status.pending) :
    reject store tid reason now
      = (storeUpdate store tid
          { r with
            status := Status.rejected,
            updated_at := now,
            rejection_reason := some reason },
         .ok { r with
            status := Status.rejected,
            updated_at := now,
            rejection_reason := some reason }) := by
  obtain ⟨t1, c1, u1, rt1, st, ca, ua, fc, si, an, rr⟩ := r
  cases st with
  | pending => simp [reject, h]
  | approved => exact absurd hp (by simp)
  | rejected => exact absurd hp (by simp)

/-- The store component of an `approve` call is the old store or an
update of the targeted ticket. -/
theorem approve_fst_shape (store : Store) (tid notes : String) (now : Nat) :
    (approve store tid notes now).1 = store
      ∨ ∃ r2, (approve store tid notes now).1 = storeUpdate store tid r2 := by
  cases h : storeGet store tid with
  | none => rw [approve_of_missing store tid notes now h]
            exact Or.inl rfl
  | some r =>
      by_cases hp : r.status = Status.pending
      · rw [approve_of_pending store tid notes now r h hp]
        exact Or.inr ⟨_, rfl⟩
      · rw [approve_of_terminal store tid notes now r h hp]
        exact Or.inl rfl

/-- The store component of a `reject` call is the old store or an update
of the targeted ticket. -/
theorem reject_fst_shape (store : Store) (tid reason : String) (now : Nat) :
    (reject store tid reason now).1 = store
      ∨ ∃ r2, (reject store tid reason now).1 = storeUpdate store tid r2 := by
  cases h : storeGet store tid with
  | none => rw [reject_of_missing store tid reason now h]
            exact Or.inl rfl
  | some r =>
      by_cases hp : r.status = Status.pending
      · rw [reject_of_pending store tid reason now r h hp]
        exact Or.inr ⟨_, rfl⟩
      · rw [reject_of_terminal store tid reason now r h hp]
        exact Or.inl rfl

end approval_manager

theorem approve_request_of_missing (store : Store) (tid : String) (now : Nat)
    (url : String) (net : NetworkOutcome) (h : storeGet store tid = none) :
    approve_request store tid now url net
      = { store := store,
          response := .httpError 404 ("Ticket " ++ tid ++ " not found"),
          push := none } := by
  simp [approve_request, approval_manager.get_approval, h]

theorem reject_request_of_missing (store : Store) (tid : String) (now : Nat)
    (url : String) (net : NetworkOutcome) (h : storeGet store tid = none) :
    reject_request store tid now url net
      = { store := store,
          response := .httpError 404 ("Ticket " ++ tid ++ " not found"),
          push := none } := by
  simp [reject_request, approval_manager.get_approval, h]

theorem approve_request_of_terminal (store : Store) (tid : String) (now : Nat)
    (url : String) (net : NetworkOutcome) (r : ApprovalRequest)
    (h : storeGet store tid = some r) (ht : r.status ≠ Status.pending) :
    approve_request store tid now url net
      = { store := store,
          response := .httpError 404 ("Ticket " ++ tid ++ " already processed"),
          push := none } := by
  simp [approve_request, approval_manager.get_approval, h,
        approval_manager.approve_of_terminal store tid "Approved via email link" now r h ht,
        approval_manager.MgrResult.isError, approval_manager.MgrResult.message]

theorem reject_request_of_terminal (store : Store) (tid : String) (now : Nat)
    (url : String) (net : NetworkOutcome) (r : ApprovalRequest)
    (h : storeGet store tid = some r) (ht : r.status ≠ Status.pending) :
    reject_request store tid now url net
      = { store := store,
          response := .httpError 404 ("Ticket " ++ tid ++ " already processed"),
          push := none } := by
  simp [reject_request, approval_manager.get_approval, h,
        approval_manager.reject_of_terminal store tid "Rejected via email link" now r h ht,
        approval_manager.MgrResult.isError, approval_manager.MgrResult.message]

theorem approve_request_of_pending (store : Store) (tid : String) (now : Nat)
    (url : String) (net : NetworkOutcome) (r : ApprovalRequest)
    (h : storeGet store tid = some r) (hp : r.status = Status.pending) :
    approve_request store tid now url net
      = { store := storeUpdate store tid
            { r with
              status := Status.approved,
              updated_at := now,
              approver_notes := some "Approved via email link" },
          response := .successPage "Claim Approved" tid r.claim_id,
          push := some (push_response_to_adk r "approved" url net) } := by
  simp [approve_request, approval_manager.get_approval, h,
        approval_manager.approve_of_pending store tid "Approved via email link" now r h hp,
        approval_manager.MgrResult.isError, approval_manager.MgrResult.claimId]

theorem reject_request_of_pending (store : Store) (tid : String) (now : Nat)
    (url : String) (net : NetworkOutcome) (r : ApprovalRequest)
    (h : storeGet store tid = some r) (hp : r.status = Status.pending) :
    reject_request store tid now url net
      = { store := storeUpdate store tid
            { r with
              status := Status.rejected,
              updated_at := now,
              rejection_reason := some "Rejected via email link" },
          response := .successPage "Claim Rejected" tid r.claim_id,
          push := some (push_response_to_adk r "rejected" url net) } := by
  simp [reject_request, approval_manager.get_approval, h,
        approval_manager.reject_of_pending store tid "Rejected via email link" now r h hp,
        approval_manager.MgrResult.isError, approval_manager.MgrResult.claimId]

/-- A request whose target holds no pending record is a no-op: the store
is unchanged and no resumption push is fired. -/
theorem run_of_notPending (q : Req) (store : Store) (url : String)
    (h : notPendingAt store q.tid) :
    (q.run store url).store = store ∧ (q.run store url).push = none := by
  cases q with
  | approveReq t now net =>
      cases hg : storeGet store t with
      | none =>
          simp only [Req.run]
          rw [approve_request_of_missing store t now url net hg]
          exact ⟨rfl, rfl⟩
      | some r =>
          have ht := h r hg
          simp only [Req.run]
          rw [approve_request_of_terminal store t now url net r hg ht]
          exact ⟨rfl, rfl⟩
  | rejectReq t now net =>
      cases hg : storeGet store t with
      | none =>
          simp only [Req.run]
          rw [reject_request_of_missing store t now url net hg]
          exact ⟨rfl, rfl⟩
      | some r =>
          have ht := h r hg
          simp only [Req.run]
          rw [reject_request_of_terminal store t now url net r hg ht]
          exact ⟨rfl, rfl⟩

/-- A request leaves the store unchanged or updates exactly its target
ticket. -/
theorem run_store_shape (q : Req) (store : Store) (url : String) :
    (q.run store url).store = store
      ∨ ∃ r2, (q.run store url).store = storeUpdate store q.tid r2 := by
  cases q with
  | approveReq t now net =>
      cases hg : storeGet store t with
      | none =>
          simp only [Req.run]
          rw [approve_request_of_missing store t now url net hg]
          exact Or.inl rfl
      | some r =>
          by_cases hp : r.status = Status.pending
          · simp only [Req.run, Req.tid]
            rw [approve_request_of_pending store t now url net r hg hp]
            exact Or.inr ⟨_, rfl⟩
          · simp only [Req.run]
            rw [approve_request_of_terminal store t now url net r hg hp]
            exact Or.inl rfl
  | rejectReq t now net =>
      cases hg : storeGet store t with
      | none =>
          simp only [Req.run]
          rw [reject_request_of_missing store t now url net hg]
          exact Or.inl rfl
      | some r =>
          by_cases hp : r.status = Status.pending
          · simp only [Req.run, Req.tid]
            rw [reject_request_of_pending store t now url net r hg hp]
            exact Or.inr ⟨_, rfl⟩
          · simp only [Req.run]
            rw [reject_request_of_terminal store t now url net r hg hp]
            exact Or.inl rfl

/-- A request on a pending ticket fires the push and leaves the ticket
terminal. -/
theorem run_of_pending (q : Req) (store : Store) (url : String)
    (r : ApprovalRequest) (h : storeGet store q.tid = some r)
    (hp : r.status = Status.pending) :
    (q.run store url).push.isSome = true
      ∧ ∃ r2, (q.run store url).store = storeUpdate store q.tid r2
          ∧ r2.status ≠ Status.pending := by
  cases q with
  | approveReq t now net =>
      simp only [Req.run, Req.tid]
      rw [approve_request_of_pending store t now url net r h hp]
      exact ⟨rfl, _, rfl, by simp⟩
  | rejectReq t now net =>
      simp only [Req.run, Req.tid]
      rw [reject_request_of_pending store t now url net r h hp]
      exact ⟨rfl, _, rfl, by simp⟩

/-- A request targeting another ticket does not change what is stored
under `tid`. -/
theorem storeGet_run_other (q : Req) (store : Store) (url tid : String)
    (hq : q.tid ≠ tid) :
    storeGet (q.run store url).store tid = storeGet store tid := by
  rcases run_store_shape q store url with hs | ⟨r2, hs⟩
  · rw [hs]
  · rw [hs]
    exact storeGet_update_other store tid q.tid r2 hq

/-- Handlers never (re-)create a pending record. -/
theorem notPendingAt_run (q : Req) (store : Store) (url tid : String)
    (h : notPendingAt store tid) :
    notPendingAt (q.run store url).store tid := by
  by_cases hq : q.tid = tid
  · rcases run_of_notPending q store url (by rw [hq]; exact h) with ⟨hs, _⟩
    rw [hs]
    exact h
  · intro r hr
    rw [storeGet_run_other q store url tid hq] at hr
    exact h r hr

theorem pushesFor_append (tid : String) (a b : List String) :
    pushesFor tid (a ++ b) = pushesFor tid a + pushesFor tid b := by
  simp [pushesFor, List.filter_append]

/-- Without a pending record under `tid`, no request sequence ever fires
a push for `tid`. -/
theorem pushesFor_runReqs_of_notPending (tid url : String) :
    ∀ (reqs : List Req) (store : Store), notPendingAt store tid →
      pushesFor tid (runReqs store url reqs).2 = 0 := by
  intro reqs
  induction reqs with
  | nil => intro store _; rfl
  | cons q rest ih =>
      intro store h
      simp only [runReqs]
      rw [pushesFor_append]
      have hrest := ih _ (notPendingAt_run q store url tid h)
      by_cases hq : q.tid = tid
      · rcases run_of_notPending q store url (by rw [hq]; exact h) with ⟨_, hpush⟩
        rw [hpush]
        simpa [pushesFor] using hrest
      · have hhead : pushesFor tid (if (q.run store url).push.isSome then [q.tid] else []) = 0 := by
          by_cases c : (q.run store url).push.isSome <;> simp [c, pushesFor, hq]
        rw [hhead, hrest]

/-- With a pending record under `tid`, a request sequence fires the push
for `tid` exactly once when some request targets `tid`, and never
otherwise. -/
theorem pushesFor_runReqs_of_pending (tid url : String) :
    ∀ (reqs : List Req) (store : Store) (r : ApprovalRequest),
      storeGet store tid = some r → r.status = Status.pending →
      pushesFor tid (runReqs store url reqs).2
        = if reqs.any (fun q => q.tid == tid) then 1 else 0 := by
  intro reqs
  induction reqs with
  | nil => intro store r _ _; rfl
  | cons q rest ih =>
      intro store r h hp
      simp only [runReqs]
      rw [pushesFor_append]
      by_cases hq : q.tid = tid
      · rcases run_of_pending q store url r (by rw [hq]; exact h) hp
          with ⟨hpush, r2, hs, hterm⟩
        rw [hpush]
        have hnp : notPendingAt (q.run store url).store tid := by
          intro r' hr'
          rw [hq] at hs
          rw [hs, storeGet_update_self store tid r r2 h] at hr'
          cases hr'
          exact hterm
        rw [pushesFor_runReqs_of_notPending tid url rest _ hnp]
        simp [pushesFor, hq, List.any_cons]
      · have hhead : pushesFor tid (if (q.run store url).push.isSome then [q.tid] else []) = 0 := by
          by_cases c : (q.run store url).push.isSome <;> simp [c, pushesFor, hq]
        have hget : storeGet (q.run store url).store tid = some r := by
          rw [storeGet_run_other q store url tid hq]
          exact h
        rw [hhead, ih _ r hget hp]
        simp [List.any_cons, hq]

/-- A terminal record is frozen by any single store operation. -/
theorem mgrOp_preserves_terminal (op : MgrOp) (store : Store) (tid : String)
    (r : ApprovalRequest) (h : storeGet store tid = some r)
    (ht : r.status ≠ Status.pending) :
    storeGet (op.apply store) tid = some r := by
  cases op with
  | createOp t c u rt fc si now =>
      simp only [MgrOp.apply, approval_manager.create]
      cases hg : storeGet store t with
      | some _ => exact h
      | none =>
          have hne : t ≠ tid := by
            intro e
            rw [e, h] at hg
            cases hg
          simp [storeGet, hne]
          exact h
  | approveOp t n now =>
      simp only [MgrOp.apply]
      by_cases he : t = tid
      · subst he
        rw [approval_manager.approve_of_terminal store t n now r h ht]
        exact h
      · rcases approval_manager.approve_fst_shape store t n now with hs | ⟨r2, hs⟩
        · rw [hs]; exact h
        · rw [hs, storeGet_update_other store tid t r2 he]
          exact h
  | rejectOp t n now =>
      simp only [MgrOp.apply]
      by_cases he : t = tid
      · subst he
        rw [approval_manager.reject_of_terminal store t n now r h ht]
        exact h
      · rcases approval_manager.reject_fst_shape store t n now with hs | ⟨r2, hs⟩
        · rw [hs]; exact h
        · rw [hs, storeGet_update_other store tid t r2 he]
          exact h

/-- A terminal record is frozen by any sequence of store operations:
status, `updated_at` and every other field stay as they are. -/
theorem runMgrOps_preserves_terminal (tid : String) :
    ∀ (ops : List MgrOp) (store : Store) (r : ApprovalRequest),
      storeGet store tid = some r → r.status ≠ Status.pending →
      storeGet (runMgrOps store ops) tid = some r := by
  intro ops
  induction ops with
  | nil => intro store r h _; exact h
  | cons op rest ih =>
      intro store r h ht
      exact ih _ r (mgrOp_preserves_terminal op store tid r h ht) ht

/-- With missing correlation data the push is skipped: warning, no
outbound request, `False` returned. -/
theorem push_of_missing (req : ApprovalRequest) (status url : String)
    (net : NetworkOutcome)
    (h : strFalsy req.function_call_id = true ∨ req.session_info = []) :
    push_response_to_adk req status url net
      = { returned := false, sent := none,
          missing_warning := true, failure_logged := false } := by
  cases hfc : req.function_call_id with
  | none => simp [push_response_to_adk, hfc]
  | some fc =>
      rcases h with h | h
      · rw [hfc] at h
        simp [strFalsy] at h
        simp [push_response_to_adk, hfc, h]
      · simp [push_response_to_adk, hfc, h]

/-- With correlation data present, the push posts the payload and
succeeds exactly on a 200 response. -/
theorem push_of_present_ok (req : ApprovalRequest) (status url fc : String)
    (hfc : req.function_call_id = some fc) (hne : fc ≠ "")
    (hsi : req.session_info ≠ []) :
    push_response_to_adk req status url (.response 200)
      = { returned := true,
          sent := some
            { method := "POST", url := url ++ "/run",
              body := resumptionPayload req.session_info fc
                (functionResponseJson req status) },
          missing_warning := false, failure_logged := false } := by
  simp [push_response_to_adk, hfc, hne, hsi]

/-- With correlation data present and a failing network outcome, the push
posts the payload, logs the failure and returns `False`. -/
theorem push_of_present_fail (req : ApprovalRequest) (status url fc : String)
    (net : NetworkOutcome) (hfc : req.function_call_id = some fc)
    (hne : fc ≠ "") (hsi : req.session_info ≠ []) (hf : netFails net) :
    push_response_to_adk req status url net
      = { returned := false,
          sent := some
            { method := "POST", url := url ++ "/run",
              body := resumptionPayload req.session_info fc
                (functionResponseJson req status) },
          missing_warning := false, failure_logged := true } := by
  cases net with
  | response code =>
      have hc : code ≠ 200 := hf
      simp [push_response_to_adk, hfc, hne, hsi, hc]
  | exception e =>
      simp [push_response_to_adk, hfc, hne, hsi]

/-- C10: `push_response_to_adk` is total towards its callers (every
outcome, including a raised exception, yields a plain return value in
this embedding, mirroring the catch-all `except` in the source) and it
returns `True` exactly when correlation data is present and the agent
runtime answers HTTP 200; in every other case (missing correlation data,
non-200 response, raised exception) it returns `False`. -/
theorem C10_push_returns_true_iff_200 (req : ApprovalRequest)
    (status url : String) (net : NetworkOutcome) :
    (push_response_to_adk req status url net).returned = true ↔
      ((∃ fc, req.function_call_id = some fc ∧ fc ≠ "")
        ∧ req.session_info ≠ [] ∧ net = NetworkOutcome.response 200) := by
  constructor
  · intro h
    cases hfc : req.function_call_id with
    | none =>
        rw [push_of_missing req status url net (Or.inl (by rw [hfc]; rfl))] at h
        simp at h
    | some fc =>
        by_cases hne : fc = ""
        · rw [push_of_missing req status url net (Or.inl (by rw [hfc, hne]; rfl))] at h
          simp at h
        · by_cases hsi : req.session_info = []
          · rw [push_of_missing req status url net (Or.inr hsi)] at h
            simp at h
          · cases net with
            | response code =>
                by_cases hc : code = 200
                · subst hc
                  exact ⟨⟨fc, rfl, hne⟩, hsi, rfl⟩
                · rw [push_of_present_fail req status url fc (.response code)
                        hfc hne hsi hc] at h
                  simp at h
            | exception e =>
                rw [push_of_present_fail req status url fc (.exception e)
                      hfc hne hsi trivial] at h
                simp at h
  · rintro ⟨⟨fc, hfc, hne⟩, hsi, rfl⟩
    rw [push_of_present_ok req status url fc hfc hne hsi]

/-- C7: whenever the resumption call is attempted, the outbound request
is a `POST` to `{runtime_url}/run` and its JSON body has exactly the
shape the spec gives, with the `id` taken from the ticket's
`function_call_id` and `app_name`/`user_id`/`session_id` taken from the
ticket's `session_info`. -/
theorem C7_resumption_request_shape (req : ApprovalRequest)
    (status url : String) (net : NetworkOutcome) (out : OutboundRequest)
    (h : (push_response_to_adk req status url net).sent = some out) :
    out.method = "POST" ∧ out.url = url ++ "/run"
      ∧ ∃ fc, req.function_call_id = some fc
        ∧ out.body = specResumptionShape
            (Json.ofOpt (dictGet req.session_info "app_name"))
            (Json.ofOpt (dictGet req.session_info "user_id"))
            (Json.ofOpt (dictGet req.session_info "session_id"))
            "request_claim_approval" fc
            (functionResponseJson req status) := by
  cases hfc : req.function_call_id with
  | none =>
      rw [push_of_missing req status url net (Or.inl (by rw [hfc]; rfl))] at h
      simp at h
  | some fc =>
      by_cases hne : fc = ""
      · rw [push_of_missing req status url net (Or.inl (by rw [hfc, hne]; rfl))] at h
        simp at h
      · by_cases hsi : req.session_info = []
        · rw [push_of_missing req status url net (Or.inr hsi)] at h
          simp at h
        · have hsent : (push_response_to_adk req status url net).sent
              = some { method := "POST", url := url ++ "/run",
                       body := resumptionPayload req.session_info fc
                         (functionResponseJson req status) } := by
            cases net with
            | response code =>
                by_cases hc : code = 200
                · subst hc
                  rw [push_of_present_ok req status url fc hfc hne hsi]
                · rw [push_of_present_fail req status url fc (.response code)
                        hfc hne hsi hc]
            | exception e =>
                rw [push_of_present_fail req status url fc (.exception e)
                      hfc hne hsi trivial]
          rw [h] at hsent
          injection hsent with hout
          subst hout
          exact ⟨rfl, rfl, fc, rfl, rfl⟩

/-- C7 witness: a concrete attempted call on the sample pending ticket. -/
theorem C7_witness :
    ((push_response_to_adk sampleTicket "approved" "http://localhost:8000"
        (.response 200)).sent).isSome = true
    ∧ ∀ out, (push_response_to_adk sampleTicket "approved" "http://localhost:8000"
        (.response 200)).sent = some out →
        out.method = "POST" ∧ out.url = "http://localhost:8000/run"
          ∧ ∃ fc, sampleTicket.function_call_id = some fc
            ∧ out.body = specResumptionShape
                (Json.ofOpt (dictGet sampleTicket.session_info "app_name"))
                (Json.ofOpt (dictGet sampleTicket.session_info "user_id"))
                (Json.ofOpt (dictGet sampleTicket.session_info "session_id"))
                "request_claim_approval" fc
                (functionResponseJson sampleTicket "approved") :=
  ⟨rfl, fun out h =>
    C7_resumption_request_shape sampleTicket "approved" "http://localhost:8000"
      (.response 200) out h⟩

/-- C6: for a pending ticket whose record lacks correlation data (falsy
`function_call_id` or empty `session_info`), the resumption call is
skipped entirely (no outbound request), a warning is logged, and the
approve/reject request itself still succeeds with the confirmation
page. -/
theorem C6_missing_correlation_skips_push (store : Store) (tid url : String)
    (r : ApprovalRequest) (now : Nat) (net : NetworkOutcome)
    (h : storeGet store tid = some r) (hp : r.status = Status.pending)
    (hm : strFalsy r.function_call_id = true ∨ r.session_info = []) :
    ((approve_request store tid now url net).response
        = .successPage "Claim Approved" tid r.claim_id
      ∧ (approve_request store tid now url net).push
        = some { returned := false, sent := none,
                 missing_warning := true, failure_logged := false })
    ∧ ((reject_request store tid now url net).response
        = .successPage "Claim Rejected" tid r.claim_id
      ∧ (reject_request store tid now url net).push
        = some { returned := false, sent := none,
                 missing_warning := true, failure_logged := false }) := by
  rw [approve_request_of_pending store tid now url net r h hp,
      reject_request_of_pending store tid now url net r h hp]
  exact ⟨⟨rfl, by rw [push_of_missing r "approved" url net hm]⟩,
         ⟨rfl, by rw [push_of_missing r "rejected" url net hm]⟩⟩

/-- C6 witness: the correlation-less pending sample ticket. -/
theorem C6_witness :
    storeGet noCorrStore "TICKET-004" = some noCorrTicket
    ∧ noCorrTicket.status = Status.pending
    ∧ (approve_request noCorrStore "TICKET-004" 30 "http://localhost:8000"
        (.response 200)).response
        = .successPage "Claim Approved" "TICKET-004" noCorrTicket.claim_id
    ∧ (approve_request noCorrStore "TICKET-004" 30 "http://localhost:8000"
        (.response 200)).push
        = some { returned := false, sent := none,
                 missing_warning := true, failure_logged := false } :=
  ⟨rfl, rfl,
    (C6_missing_correlation_skips_push noCorrStore "TICKET-004"
      "http://localhost:8000" noCorrTicket 30 (.response 200) rfl rfl
      (Or.inl rfl)).1.1,
    (C6_missing_correlation_skips_push noCorrStore "TICKET-004"
      "http://localhost:8000" noCorrTicket 30 (.response 200) rfl rfl
      (Or.inl rfl)).1.2⟩

/-- C5: when the transition succeeds but delivery of the resumption
payload fails (non-200 response or exception), the failure is only
logged (`failure_logged`, `returned = False`), the HTTP caller still
gets the success confirmation page, and the ticket keeps its new
terminal status (no rollback). -/
theorem C5_delivery_failure_still_success (store : Store) (tid url fc : String)
    (r : ApprovalRequest) (now : Nat) (net : NetworkOutcome)
    (h : storeGet store tid = some r) (hp : r.status = Status.pending)
    (hfc : r.function_call_id = some fc) (hne : fc ≠ "")
    (hsi : r.session_info ≠ []) (hf : netFails net) :
    ((approve_request store tid now url net).response
        = .successPage "Claim Approved" tid r.claim_id
      ∧ (approve_request store tid now url net).push
        = some { returned := false,
                 sent := some
                   { method := "POST", url := url ++ "/run",
                     body := resumptionPayload r.session_info fc
                       (functionResponseJson r "approved") },
                 missing_warning := false, failure_logged := true }
      ∧ ∃ r2, storeGet (approve_request store tid now url net).store tid = some r2
          ∧ r2.status = Status.approved ∧ r2.updated_at = now)
    ∧ ((reject_request store tid now url net).response
        = .successPage "Claim Rejected" tid r.claim_id
      ∧ (reject_request store tid now url net).push
        = some { returned := false,
                 sent := some
                   { method := "POST", url := url ++ "/run",
                     body := resumptionPayload r.session_info fc
                       (functionResponseJson r "rejected") },
                 missing_warning := false, failure_logged := true }
      ∧ ∃ r2, storeGet (reject_request store tid now url net).store tid = some r2
          ∧ r2.status = Status.rejected ∧ r2.updated_at = now) := by
  rw [approve_request_of_pending store tid now url net r h hp,
      reject_request_of_pending store tid now url net r h hp]
  refine ⟨⟨rfl, ?_, ?_⟩, ⟨rfl, ?_, ?_⟩⟩
  · rw [push_of_present_fail r "approved" url fc net hfc hne hsi hf]
  · exact ⟨_, storeGet_update_self store tid r _ h, rfl, rfl⟩
  · rw [push_of_present_fail r "rejected" url fc net hfc hne hsi hf]
  · exact ⟨_, storeGet_update_self store tid r _ h, rfl, rfl⟩

/-- C5 witness: delivery of the approval for the sample pending ticket
fails with HTTP 500; the caller still sees the confirmation and the
ticket stays approved. -/
theorem C5_witness :
    storeGet sampleStore "TICKET-001" = some sampleTicket
    ∧ netFails (.response 500)
    ∧ (approve_request sampleStore "TICKET-001" 30 "http://localhost:8000"
        (.response 500)).response
        = .successPage "Claim Approved" "TICKET-001" sampleTicket.claim_id
    ∧ ∃ r2, storeGet (approve_request sampleStore "TICKET-001" 30
          "http://localhost:8000" (.response 500)).store "TICKET-001" = some r2
        ∧ r2.status = Status.approved ∧ r2.updated_at = 30 :=
  ⟨rfl, (by decide : (500 : Nat) ≠ 200),
    (C5_delivery_failure_still_success sampleStore "TICKET-001"
      "http://localhost:8000" "fc-1" sampleTicket 30 (.response 500) rfl rfl rfl
      (by decide) (by decide) (by decide : (500 : Nat) ≠ 200)).1.1,
    (C5_delivery_failure_still_success sampleStore "TICKET-001"
      "http://localhost:8000" "fc-1" sampleTicket 30 (.response 500) rfl rfl rfl
      (by decide) (by decide) (by decide : (500 : Nat) ≠ 200)).1.2.2⟩

/-- C1 counterexample: an approve request on the concrete ticket
`TICKET-002`, which exists and is already terminal (approved), is
answered with an HTTP 404 error (`HTTPException` raised on the manager's
error result), not with a success confirmation; the claim that the
caller is "still shown a success confirmation" is therefore false on the
code.  The reject request on the same ticket errs identically. -/
theorem C1_counterexample :
    storeGet sampleStore "TICKET-002" = some doneTicket
    ∧ doneTicket.status = Status.approved
    ∧ (approve_request sampleStore "TICKET-002" 30 "http://localhost:8000"
        (.response 200)).response
        = .httpError 404 "Ticket TICKET-002 already processed"
    ∧ (reject_request sampleStore "TICKET-002" 30 "http://localhost:8000"
        (.response 200)).response
        = .httpError 404 "Ticket TICKET-002 already processed" :=
  ⟨rfl, rfl, rfl, rfl⟩

/-- C1 amended: for every approve or reject request on an existing ticket
whose transition attempt is refused because the ticket is already in a
terminal state, the HTTP caller receives an HTTP 404 error response
carrying the manager's error message (the same error path as an unknown
ticket), not a success confirmation; the store is unchanged and the
resumption call is still not re-fired. -/
theorem C1_terminal_transition_is_404 (store : Store) (tid url : String)
    (r : ApprovalRequest) (now : Nat) (net : NetworkOutcome)
    (h : storeGet store tid = some r) (ht : r.status ≠ Status.pending) :
    approve_request store tid now url net
      = { store := store,
          response := .httpError 404 ("Ticket " ++ tid ++ " already processed"),
          push := none }
    ∧ reject_request store tid now url net
      = { store := store,
          response := .httpError 404 ("Ticket " ++ tid ++ " already processed"),
          push := none } :=
  ⟨approve_request_of_terminal store tid now url net r h ht,
   reject_request_of_terminal store tid now url net r h ht⟩

/-- C1 amended witness: the concrete terminal ticket `TICKET-002`. -/
theorem C1_witness :
    storeGet sampleStore "TICKET-002" = some doneTicket
    ∧ doneTicket.status ≠ Status.pending
    ∧ approve_request sampleStore "TICKET-002" 30 "http://localhost:8000"
        (.response 200)
      = { store := sampleStore,
          response := .httpError 404 "Ticket TICKET-002 already processed",
          push := none } :=
  ⟨rfl, by decide,
    (C1_terminal_transition_is_404 sampleStore "TICKET-002"
      "http://localhost:8000" doneTicket 30 (.response 200) rfl
      (by decide)).1⟩

/-- C2: the resumption push is performed exactly when the transition
attempt succeeds — the handler calls `push_response_to_adk` if and only
if the manager result is not an error — and over any sequence of
approve/reject requests hitting a ticket that is pending at the start,
the push for that ticket fires exactly once (once, when some request
targets it; never, in particular, for a repeated or redelivered request
arriving after the terminal transition). -/
theorem C2_push_fires_exactly_once (store : Store) (tid url : String)
    (now : Nat) (net : NetworkOutcome) :
    ((approve_request store tid now url net).push.isSome
        = !(approval_manager.approve store tid "Approved via email link" now).2.isError
      ∧ (reject_request store tid now url net).push.isSome
        = !(approval_manager.reject store tid "Rejected via email link" now).2.isError)
    ∧ ∀ (reqs : List Req) (r : ApprovalRequest),
        storeGet store tid = some r → r.status = Status.pending →
        pushesFor tid (runReqs store url reqs).2
          = if reqs.any (fun q => q.tid == tid) then 1 else 0 := by
  constructor
  · constructor
    · cases hg : storeGet store tid with
      | none =>
          rw [approve_request_of_missing store tid now url net hg,
              approval_manager.approve_of_missing store tid "Approved via email link" now hg]
          rfl
      | some r =>
          by_cases hp : r.status = Status.pending
          · rw [approve_request_of_pending store tid now url net r hg hp,
                approval_manager.approve_of_pending store tid "Approved via email link" now r hg hp]
            rfl
          · rw [approve_request_of_terminal store tid now url net r hg hp,
                approval_manager.approve_of_terminal store tid "Approved via email link" now r hg hp]
            rfl
    · cases hg : storeGet store tid with
      | none =>
          rw [reject_request_of_missing store tid now url net hg,
              approval_manager.reject_of_missing store tid "Rejected via email link" now hg]
          rfl
      | some r =>
          by_cases hp : r.status = Status.pending
          · rw [reject_request_of_pending store tid now url net r hg hp,
                approval_manager.reject_of_pending store tid "Rejected via email link" now r hg hp]
            rfl
          · rw [reject_request_of_terminal store tid now url net r hg hp,
                approval_manager.reject_of_terminal store tid "Rejected via email link" now r hg hp]
            rfl
  · intro reqs r h hp
    exact pushesFor_runReqs_of_pending tid url reqs store r h hp

/-- C2 witness: an approve of the pending `TICKET-001` followed by a
redelivered reject of the same ticket fires exactly one push. -/
theorem C2_witness :
    storeGet sampleStore "TICKET-001" = some sampleTicket
    ∧ sampleTicket.status = Status.pending
    ∧ pushesFor "TICKET-001"
        (runReqs sampleStore "http://localhost:8000"
          [.approveReq "TICKET-001" 30 (.response 200),
           .rejectReq "TICKET-001" 31 (.response 200)]).2
        = if ([Req.approveReq "TICKET-001" 30 (.response 200),
               Req.rejectReq "TICKET-001" 31 (.response 200)].any
                (fun q => q.tid == "TICKET-001")) then 1 else 0 :=
  ⟨rfl, rfl,
    (C2_push_fires_exactly_once sampleStore "TICKET-001" "http://localhost:8000"
      30 (.response 200)).2
      [.approveReq "TICKET-001" 30 (.response 200),
       .rejectReq "TICKET-001" 31 (.response 200)]
      sampleTicket rfl rfl⟩

/-- C4: for a ticket ID that is not in the store, the approve, reject and
status endpoints all answer HTTP 404 with the descriptive message
`Ticket {ticket_id} not found`, the store is unchanged (no record is
created as a side effect; `get_status` does not touch the store at all),
and no resumption push is fired. -/
theorem C4_unknown_ticket_404 (store : Store) (tid url : String) (now : Nat)
    (net : NetworkOutcome) (h : storeGet store tid = none) :
    approve_request store tid now url net
      = { store := store,
          response := .httpError 404 ("Ticket " ++ tid ++ " not found"),
          push := none }
    ∧ reject_request store tid now url net
      = { store := store,
          response := .httpError 404 ("Ticket " ++ tid ++ " not found"),
          push := none }
    ∧ get_status store tid = .httpError 404 ("Ticket " ++ tid ++ " not found") := by
  refine ⟨approve_request_of_missing store tid now url net h,
          reject_request_of_missing store tid now url net h, ?_⟩
  simp [get_status, approval_manager.get_approval, h]

/-- C4 witness: the never-created ticket ID `T-missing`. -/
theorem C4_witness :
    storeGet sampleStore "T-missing" = none
    ∧ approve_request sampleStore "T-missing" 30 "http://localhost:8000"
        (.response 200)
      = { store := sampleStore,
          response := .httpError 404 "Ticket T-missing not found",
          push := none } :=
  ⟨rfl,
    (C4_unknown_ticket_404 sampleStore "T-missing" "http://localhost:8000" 30
      (.response 200) rfl).1⟩

/-- C3 (store modelled from the spec): a created ticket starts in
`pending` with `created_at = updated_at`; an approve or reject attempt on
a ticket already in a terminal state leaves the store — hence the
ticket's `status` and `updated_at` — entirely unchanged; and once a
ticket is terminal, no sequence of further store operations changes its
record, so the status transitions at most once. -/
theorem C3_status_lifecycle :
    (∀ (store : Store) (tid c u rt : String) (fc : Option String)
       (si : List (String × String)) (now : Nat),
       storeGet store tid = none →
       ∃ rec, storeGet (approval_manager.create store tid c u rt fc si now) tid
           = some rec
         ∧ rec.status = Status.pending ∧ rec.created_at = now
         ∧ rec.updated_at = now)
    ∧ (∀ (store : Store) (tid notes reason : String) (now : Nat)
         (r : ApprovalRequest),
       storeGet store tid = some r → r.status ≠ Status.pending →
       (approval_manager.approve store tid notes now).1 = store
         ∧ (approval_manager.reject store tid reason now).1 = store)
    ∧ (∀ (store : Store) (tid : String) (r : ApprovalRequest)
         (ops : List MgrOp),
       storeGet store tid = some r → r.status ≠ Status.pending →
       storeGet (runMgrOps store ops) tid = some r) := by
  refine ⟨?_, ?_, ?_⟩
  · intro store tid c u rt fc si now h
    exact ⟨{ ticket_id := tid, claim_id := c, user_email := u,
             request_type := rt, status := Status.pending,
             created_at := now, updated_at := now,
             function_call_id := fc, session_info := si,
             approver_notes := none, rejection_reason := none },
           by simp [approval_manager.create, h, storeGet], rfl, rfl, rfl⟩
  · intro store tid notes reason now r h ht
    constructor
    · rw [approval_manager.approve_of_terminal store tid notes now r h ht]
    · rw [approval_manager.reject_of_terminal store tid reason now r h ht]
  · intro store tid r ops h ht
    exact runMgrOps_preserves_terminal tid ops store r h ht

/-- C3 witness: creating `TICKET-003` yields a pending record; approve
and reject on the terminal `TICKET-002` leave the store unchanged; the
terminal record survives a sequence of further transition attempts. -/
theorem C3_witness :
    (∃ rec, storeGet (approval_manager.create sampleStore "TICKET-003" "CLM-003"
        "customer@example.com" "claim_verification" (some "fc-3")
        sampleSession 40) "TICKET-003" = some rec
      ∧ rec.status = Status.pending ∧ rec.created_at = 40
      ∧ rec.updated_at = 40)
    ∧ ((approval_manager.approve sampleStore "TICKET-002" "n" 50).1 = sampleStore
      ∧ (approval_manager.reject sampleStore "TICKET-002" "m" 50).1 = sampleStore)
    ∧ storeGet (runMgrOps sampleStore
        [.approveOp "TICKET-002" "x" 60, .rejectOp "TICKET-002" "y" 61])
        "TICKET-002" = some doneTicket :=
  ⟨C3_status_lifecycle.1 sampleStore "TICKET-003" "CLM-003"
     "customer@example.com" "claim_verification" (some "fc-3") sampleSession 40 rfl,
   C3_status_lifecycle.2.1 sampleStore "TICKET-002" "n" "m" 50 doneTicket rfl
     (by decide),
   C3_status_lifecycle.2.2 sampleStore "TICKET-002" doneTicket
     [.approveOp "TICKET-002" "x" 60, .rejectOp "TICKET-002" "y" 61] rfl
     (by decide)⟩

/-- C8: for an existing ticket, `GET /api/status/:id` returns a JSON
object with exactly the fields `ticket_id`, `claim_id`, `status`,
`request_type`, `created_at`, `updated_at` of that ticket's record, and
answers 404 when the ticket is unknown. -/
theorem C8_status_endpoint (store : Store) (tid : String) :
    (∀ r, storeGet store tid = some r →
       get_status store tid = .jsonBody (Json.obj
         [("ticket_id", Json.str r.ticket_id),
          ("claim_id", Json.str r.claim_id),
          ("status", Json.str r.status.toStr),
          ("request_type", Json.str r.request_type),
          ("created_at", Json.num r.created_at),
          ("updated_at", Json.num r.updated_at)]))
    ∧ (storeGet store tid = none →
       get_status store tid = .httpError 404 ("Ticket " ++ tid ++ " not found")) := by
  constructor
  · intro r h
    simp [get_status, approval_manager.get_approval, h]
  · intro h
    simp [get_status, approval_manager.get_approval, h]

/-- C8 witness: the sample pending ticket and a missing ID. -/
theorem C8_witness :
    storeGet sampleStore "TICKET-001" = some sampleTicket
    ∧ get_status sampleStore "TICKET-001" = .jsonBody (Json.obj
        [("ticket_id", Json.str sampleTicket.ticket_id),
         ("claim_id", Json.str sampleTicket.claim_id),
         ("status", Json.str sampleTicket.status.toStr),
         ("request_type", Json.str sampleTicket.request_type),
         ("created_at", Json.num sampleTicket.created_at),
         ("updated_at", Json.num sampleTicket.updated_at)])
    ∧ get_status sampleStore "T-missing"
        = .httpError 404 "Ticket T-missing not found" :=
  ⟨rfl,
   (C8_status_endpoint sampleStore "TICKET-001").1 sampleTicket rfl,
   (C8_status_endpoint sampleStore "T-missing").2 rfl⟩

/-- C9: `GET /api/pending` reports a count equal to the number of pending
tickets and one entry with exactly the fields `ticket_id`, `claim_id`,
`user_email`, `request_type`, `created_at` for each pending ticket; a
record belongs to the pending list exactly when it is in the store with
status `pending`, so a terminal ticket never appears. -/
theorem C9_pending_endpoint (store : Store) :
    get_pending_approvals store
      = .jsonBody (Json.obj
          [("count", Json.num (approval_manager.get_all_pending store).length),
           ("pending_approvals", Json.arr
             ((approval_manager.get_all_pending store).map (fun req =>
               Json.obj
                 [("ticket_id", Json.str req.ticket_id),
                  ("claim_id", Json.str req.claim_id),
                  ("user_email", Json.str req.user_email),
                  ("request_type", Json.str req.request_type),
                  ("created_at", Json.num req.created_at)])))])
    ∧ ∀ r : ApprovalRequest,
        r ∈ approval_manager.get_all_pending store
          ↔ r ∈ store.map Prod.snd ∧ r.status = Status.pending := by
  refine ⟨rfl, ?_⟩
  intro r
  simp [approval_manager.get_all_pending, List.mem_filter]
